import Mathlib

/-!
Shallow embedding of `src/app.py`: a sliding-window stationarity pipeline
over a price series (fetch → window by calendar date → per-window test
battery → result table → summary report → plot), together with theorems
settling the specification claims about it.

Modelling conventions:
* floats are modelled as `ℚ`; a pandas `NaN` / Python `None` value is
  modelled as `Option.none`;
* a timestamp is modelled as a calendar date (`ℤ`) plus an intraday
  position (`ℕ`); the pipeline only ever reads the date part;
* a pandas `DataFrame` of OHLC bars is a `PriceFrame`: a list of rows plus
  an optional extra `date` column (the column that
  `analizar_estacionariedad` writes into its argument in place);
* the external statistical routines (`statsmodels.adfuller`,
  `statsmodels.kpss`, `hurst.compute_Hc`) and the numeric square root used
  by `Series.std` are not part of this repository, so they are parameters,
  collected in a `StatLib`; `kpss` may raise `ValueError` (modelled as
  `Except.error` carrying the message string) and `compute_Hc` may raise
  `FloatingPointError` (modelled as `Except.error ()`);
* an unhandled Python exception aborting the run is modelled as
  `Except.error` at the top level (`appMain`).
-/

/-- One bar of the fetched table: calendar date of its timestamp, intraday
position, and the `Close` price (`none` models a missing / NaN price). -/
structure Bar where
  date : ℤ
  time : ℕ
  close : Option ℚ
  deriving DecidableEq, Repr

/-- A pandas DataFrame of bars: the rows, plus the optional extra `date`
column (present once `analizar_estacionariedad` has written it). -/
structure PriceFrame where
  rows : List Bar
  dateCol : Option (List ℤ)
  deriving DecidableEq, Repr

/-- The external statistical routines used by `app.py`, as parameters.
`adfuller` returns (statistic, p-value) and is assumed total; `kpss` takes
the `regression` and `nlags` arguments and returns (statistic, p-value) or
raises `ValueError` (the error string); `computeHc` takes the `kind` and
`simplified` arguments and returns the triple `H, c, data` or raises
`FloatingPointError`; `sqrt` is the numeric square root used by
`Series.std`. -/
structure StatLib where
  adfuller : List ℚ → ℚ × ℚ
  kpss : String → String → List ℚ → Except String (ℚ × ℚ)
  computeHc : String → Bool → List ℚ → Except Unit (ℚ × ℚ × List ℚ)
  sqrt : ℚ → ℚ

/-- The dict `resultados['ADF']` built by `pruebas_estacionariedad`:
always a p-value and a statistic. -/
structure AdfEntry where
  pvalue : ℚ
  estadistico : ℚ
  deriving DecidableEq, Repr

/-- The dict `resultados['KPSS']`: on success a p-value and a statistic, on
`ValueError` a `None` p-value and the error message string. -/
structure KpssEntry where
  pvalue : Option ℚ
  estadistico : Option ℚ
  error : Option String
  deriving DecidableEq, Repr

/-- The dict returned by `pruebas_estacionariedad`. -/
structure Resultados where
  ADF : AdfEntry
  KPSS : KpssEntry
  deriving DecidableEq, Repr

/-- Embedding of `pruebas_estacionariedad` (app.py lines 16-27): run the
ADF test, then the KPSS test with `regression="c", nlags="auto"`, catching
`ValueError` into a null p-value plus the message string. -/
def pruebas_estacionariedad (lib : StatLib) (data : List ℚ) : Resultados :=
  let adf_result := lib.adfuller data
  let kpssEntry : KpssEntry :=
    match lib.kpss "c" "auto" data with
    | Except.ok kpss_result =>
        { pvalue := some kpss_result.2, estadistico := some kpss_result.1, error := none }
    | Except.error e => { pvalue := none, estadistico := none, error := some e }
  { ADF := { pvalue := adf_result.2, estadistico := adf_result.1 }, KPSS := kpssEntry }

/-- Embedding of `calcular_hurst` (app.py lines 30-37): `None` below 100
observations, otherwise `compute_Hc(data, kind="price", simplified=True)`,
with `FloatingPointError` caught into `None`. -/
def calcular_hurst (lib : StatLib) (data : List ℚ) : Option ℚ :=
  if data.length < 100 then none
  else
    match lib.computeHc "price" true data with
    | Except.ok Hcd => some Hcd.1
    | Except.error _ => none

/-- One row of the result table built in `analizar_estacionariedad`
(app.py lines 53-60). -/
structure Row where
  inicioVentana : ℤ
  finVentana : ℤ
  adfPvalue : ℚ
  kpssPvalue : Option ℚ
  hurstExponent : Option ℚ
  volatilidad : Option ℚ
  deriving DecidableEq, Repr

/-- The in-place assignment `data['date'] = data.index.date` (app.py
line 42): the frame keeps its rows and gains a `date` column holding the
calendar date of each row's timestamp. -/
def setDateColumn (data : PriceFrame) : PriceFrame :=
  { rows := data.rows, dateCol := some (data.rows.map Bar.date) }

/-- `sorted(column.unique())`: the distinct values of a column, sorted
ascending. -/
def fechasUnicasOf (dates : List ℤ) : List ℤ :=
  dates.dedup.insertionSort (· ≤ ·)

/-- Number of loop iterations `range(len(fechas_unicas) - ventana_dias + 1)`
performs (app.py line 44); a Python `range` over a negative bound is
empty, so the subtraction is taken in `ℤ` and clamped. -/
def numVentanas (d ventana_dias : ℕ) : ℕ :=
  ((d : ℤ) - (ventana_dias : ℤ) + 1).toNat

/-- The window `fechas_unicas[i : i + ventana_dias]` (app.py line 45). -/
def ventanaAt (fechas : List ℤ) (ventana_dias i : ℕ) : List ℤ :=
  (fechas.drop i).take ventana_dias

/-- The slice `data[data['date'].isin(ventana)]` (app.py line 46). -/
def ventanaSubset (rows : List Bar) (ventana : List ℤ) : List Bar :=
  rows.filter (fun b => decide (b.date ∈ ventana))

/-- The filter `subset['Close'][subset['Close'] > 0].dropna()` (app.py
line 47): a NaN price fails `> 0` and is also dropped by `dropna`, so only
present prices strictly greater than 0 survive. -/
def preciosValidos (subset : List Bar) : List ℚ :=
  subset.filterMap (fun b =>
    match b.close with
    | some c => if 0 < c then some c else none
    | none => none)

/-- `precios.pct_change().dropna()` (app.py line 50): the relative change
between consecutive entries, with the undefined first entry dropped. -/
def pct_change (xs : List ℚ) : List ℚ :=
  List.zipWith (fun prev next => (next - prev) / prev) xs xs.tail

/-- The mean of a series of rationals (`Series.mean`). -/
def seriesMean (xs : List ℚ) : ℚ :=
  xs.sum / (xs.length : ℚ)

/-- The sample variance with `ddof = 1` (the pandas default). -/
def sampleVariance (xs : List ℚ) : ℚ :=
  ((xs.map (fun x => (x - seriesMean xs) ^ 2)).sum) / ((xs.length : ℚ) - 1)

/-- `retornos.std()` (app.py line 59): the pandas sample standard
deviation with its default `ddof = 1`, which is NaN (here `none`) for a
series of fewer than two observations. -/
def seriesStd (lib : StatLib) (xs : List ℚ) : Option ℚ :=
  if xs.length < 2 then none else some (lib.sqrt (sampleVariance xs))

/-- The return series of one window: valid prices of the window's slice,
then percentage changes. -/
def retornosVentana (rows : List Bar) (ventana : List ℤ) : List ℚ :=
  pct_change (preciosValidos (ventanaSubset rows ventana))

/-- The body of the loop in `analizar_estacionariedad` (app.py lines
45-60) for one window: `none` models `continue` (the window is skipped),
`some` the dict appended to `resultados`. -/
def procesarVentana (lib : StatLib) (rows : List Bar) (ventana : List ℤ) : Option Row :=
  let precios := preciosValidos (ventanaSubset rows ventana)
  if precios.length < 2 then none
  else
    let retornos := pct_change precios
    let estacionariedad := pruebas_estacionariedad lib retornos
    let hurst := calcular_hurst lib retornos
    some
      { inicioVentana := ventana.headD 0
        finVentana := ventana.getLastD 0
        adfPvalue := estacionariedad.ADF.pvalue
        kpssPvalue := estacionariedad.KPSS.pvalue
        hurstExponent := hurst
        volatilidad := seriesStd lib retornos }

/-- Embedding of `analizar_estacionariedad` (app.py lines 40-61). It
first mutates its argument in place (`data['date'] = data.index.date`),
so it returns both the mutated frame and the result table
`pd.DataFrame(resultados)` (modelled as the list of rows). -/
def analizar_estacionariedad (lib : StatLib) (data : PriceFrame) (ventana_dias : ℕ) :
    PriceFrame × List Row :=
  let data1 := setDateColumn data
  let fechas_unicas := fechasUnicasOf (data1.dateCol.getD [])
  (data1,
    (List.range (numVentanas fechas_unicas.length ventana_dias)).filterMap
      (fun i => procesarVentana lib data1.rows (ventanaAt fechas_unicas ventana_dias i)))

/-- The sorted distinct dates `fechas_unicas` that the analysis of `data`
iterates over. -/
def fechasUnicas (data : PriceFrame) : List ℤ :=
  fechasUnicasOf ((setDateColumn data).dateCol.getD [])

/-- The list of windows the loop in `analizar_estacionariedad` iterates
over for a given frame and window size. -/
def ventanas (data : PriceFrame) (ventana_dias : ℕ) : List (List ℤ) :=
  (List.range (numVentanas (fechasUnicas data).length ventana_dias)).map
    (ventanaAt (fechasUnicas data) ventana_dias)

/-- Number of distinct calendar dates the frame's index spans. -/
def distinctDateCount (data : PriceFrame) : ℕ :=
  ((data.rows.map Bar.date).dedup).length

/-- The fixed message returned by `generar_reporte` on an empty table
(app.py line 66). -/
def mensajeInsuficiente : String :=
  "No hay suficiente información para realizar el análisis."

/-- The boolean series `df['ADF p-value'] < 0.05` at one row (a NaN
p-value cannot occur for ADF in the model, the value is always present). -/
def adfEstacionario (r : Row) : Bool :=
  decide (r.adfPvalue < 0.05)

/-- The boolean series `df['KPSS p-value'] > 0.05` at one row: a null
(NaN) p-value compares as `False` in pandas. -/
def kpssEstacionario (r : Row) : Bool :=
  match r.kpssPvalue with
  | some p => decide ((0.05 : ℚ) < p)
  | none => false

/-- The boolean series `(df['Hurst Exponent'] > 0.4) & (df['Hurst
Exponent'] < 0.6)` at one row: a null (NaN) exponent compares as `False`
in pandas. -/
def hurstEstacionario (r : Row) : Bool :=
  match r.hurstExponent with
  | some h => decide ((0.4 : ℚ) < h ∧ h < (0.6 : ℚ))
  | none => false

/-- `Series.mean` of a boolean series: the fraction of `True` entries. -/
def seriesBoolMean (bs : List Bool) : ℚ :=
  (bs.countP id : ℚ) / (bs.length : ℚ)

/-- The three percentages computed in `generar_reporte` (app.py lines
67-69), in order: ADF, KPSS, Hurst. -/
def porcentajes (df : List Row) : ℚ × ℚ × ℚ :=
  (seriesBoolMean (df.map adfEstacionario) * 100,
   seriesBoolMean (df.map kpssEstacionario) * 100,
   seriesBoolMean (df.map hurstEstacionario) * 100)

/-- Rendering of a rational with two decimal places, for the `:.2f`
format fields of the report template. -/
def fmt2 (q : ℚ) : String :=
  let cents : ℤ := round (q * 100)
  let a := cents.natAbs
  (if cents < 0 then "-" else "") ++ toString (a / 100) ++ "." ++
    (if a % 100 < 10 then "0" else "") ++ toString (a % 100)

/-- Embedding of `generar_reporte` (app.py lines 64-75): the fixed
insufficient-information message on an empty table, otherwise the
formatted template over the three percentages. -/
def generar_reporte (df : List Row) : String :=
  if df.isEmpty then mensajeInsuficiente
  else
    let p := porcentajes df
    "\n    **Resumen del análisis**:\n    - Probabilidad de que el oro sea estacionario (ADF): "
      ++ fmt2 p.1
      ++ "%\n    - Probabilidad de que el oro sea estacionario (KPSS): "
      ++ fmt2 p.2.1
      ++ "%\n    - Exponente de Hurst indicando estacionariedad: "
      ++ fmt2 p.2.2
      ++ "%\n    "

/-- Access to a column of the result table `pd.DataFrame(resultados)`: a
frame built from an empty list of dicts has no columns at all, so any
column access on it raises `KeyError`. -/
def dfColumn {α : Type} (df : List Row) (name : String) (f : Row → α) :
    Except String (List α) :=
  if df.isEmpty then Except.error ("KeyError: " ++ name) else Except.ok (df.map f)

/-- The chart `graficar` hands to the presentation layer: x-values, the
two p-value series, and the 0.05 reference line. -/
structure Grafico where
  xValues : List ℤ
  adfSeries : List ℚ
  kpssSeries : List (Option ℚ)
  umbral : ℚ
  deriving DecidableEq, Repr

/-- Embedding of `graficar` (app.py lines 78-87): reads the columns
`Inicio Ventana`, `ADF p-value`, `KPSS p-value` in plot order; a missing
column raises `KeyError`, which propagates. -/
def graficar (df : List Row) : Except String Grafico := do
  let xs ← dfColumn df "Inicio Ventana" Row.inicioVentana
  let adf ← dfColumn df "ADF p-value" Row.adfPvalue
  let kp ← dfColumn df "KPSS p-value" Row.kpssPvalue
  Except.ok { xValues := xs, adfSeries := adf, kpssSeries := kp, umbral := 0.05 }

/-- Outcome of the top-level script body: either the fetched table was
empty (the error message is shown and nothing runs), or the full pipeline
ran and produced a result table, a report and a chart. -/
inductive AppResult where
  | sinDatos : AppResult
  | exito : List Row → String → Grafico → AppResult
  deriving DecidableEq, Repr

/-- Embedding of the module-level script (app.py lines 90-113) from the
point where `datos` is available: if the fetched frame is empty, report
the download failure; otherwise run `analizar_estacionariedad` with
`ventana_dias=2`, build the report, then call `graficar` on the result
table.  An uncaught exception (modelled as `Except.error`) aborts the
run. -/
def appMain (lib : StatLib) (datos : PriceFrame) : Except String AppResult :=
  if datos.rows.isEmpty then Except.ok AppResult.sinDatos
  else
    let resultados := (analizar_estacionariedad lib datos 2).2
    let reporte := generar_reporte resultados
    match graficar resultados with
    | Except.error e => Except.error e
    | Except.ok g => Except.ok (AppResult.exito resultados reporte g)

/-- A concrete instantiation of the external statistical routines, used
by concrete witnesses: every test succeeds with fixed outputs. -/
def libOk : StatLib :=
  { adfuller := fun _ => (-3, 1/100)
    kpss := fun _ _ _ => Except.ok (1/2, 1/10)
    computeHc := fun _ _ _ => Except.ok (1/2, 1, [])
    sqrt := fun _ => 1 }

example : pct_change [1, 2, 4] = [1, 1] := by norm_num [pct_change]
example : numVentanas 1 2 = 0 := by decide
example : numVentanas 3 2 = 2 := by decide
example : fechasUnicasOf [3, 1, 3, 2] = [1, 2, 3] := by decide

/-! Helper lemmas shared by several claim theorems. -/

lemma length_fechasUnicas (data : PriceFrame) :
    (fechasUnicas data).length = distinctDateCount data := by
  simp [fechasUnicas, fechasUnicasOf, distinctDateCount, setDateColumn,
    List.length_insertionSort]

lemma analizar_snd_eq (lib : StatLib) (data : PriceFrame) (w : ℕ) :
    (analizar_estacionariedad lib data w).2 =
      (ventanas data w).filterMap (procesarVentana lib (setDateColumn data).rows) := by
  simp only [analizar_estacionariedad, ventanas, List.filterMap_map, fechasUnicas]
  rfl

lemma length_ventanas (data : PriceFrame) (w : ℕ) :
    (ventanas data w).length = numVentanas (distinctDateCount data) w := by
  simp [ventanas, length_fechasUnicas]

lemma length_filterMap_lt {α β : Type} (f : α → Option β) (l : List α) (x : α)
    (hx : x ∈ l) (hf : f x = none) : (l.filterMap f).length < l.length := by
  induction l with
  | nil => cases hx
  | cons a t ih =>
    rw [List.filterMap_cons]
    rcases List.mem_cons.mp hx with rfl | hmem
    · rw [hf]
      simpa using Nat.lt_succ_of_le (List.length_filterMap_le f t)
    · cases h : f a
      · simpa using Nat.lt_succ_of_lt (ih hmem)
      · simpa using Nat.succ_lt_succ (ih hmem)

lemma preciosValidos_pos (s : List Bar) (c : ℚ) (hc : c ∈ preciosValidos s) : 0 < c := by
  unfold preciosValidos at hc
  rw [List.mem_filterMap] at hc
  obtain ⟨b, _, h⟩ := hc
  rcases hclose : b.close with _ | q
  · rw [hclose] at h
    simp at h
  · rw [hclose] at h
    simp at h
    obtain ⟨hq, rfl⟩ := h
    exact hq

lemma length_pct_change (xs : List ℚ) : (pct_change xs).length = xs.length - 1 := by
  simp [pct_change]

/-- Frame used by the counterexample to the immutability claim and by the
amended-claim witness: a single calendar date with two valid bars. -/
def dataC4 : PriceFrame :=
  { rows := [⟨0, 0, some 1⟩, ⟨0, 1, some 2⟩], dateCol := none }

/-- The claim that `analizar_estacionariedad` leaves its input DataFrame
unchanged is false: the in-place assignment `data['date'] = data.index.date`
adds a `date` column to the argument, so the returned (mutated) frame
differs from the input. -/
theorem analizar_muta_entrada :
    (analizar_estacionariedad libOk dataC4 2).1 ≠ dataC4 := by
  decide

/-- Amended claim: a pipeline run mutates its input only by writing the
`date` column (derived from the index); the rows themselves are unchanged,
and the result table is a pure function of the input rows and the window
size (it does not depend on any pre-existing `date` column). -/
theorem analizar_mutacion_solo_fecha (lib : StatLib) (data data2 : PriceFrame) (w : ℕ)
    (h : data2.rows = data.rows) :
    (analizar_estacionariedad lib data w).1.rows = data.rows
    ∧ (analizar_estacionariedad lib data w).1.dateCol = some (data.rows.map Bar.date)
    ∧ (analizar_estacionariedad lib data2 w).2 = (analizar_estacionariedad lib data w).2 := by
  refine ⟨rfl, rfl, ?_⟩
  simp [analizar_estacionariedad, setDateColumn, h]

/-- Witness for the amended claim: a frame equal to `dataC4` up to a junk
pre-existing `date` column yields the same result table. -/
theorem analizar_mutacion_solo_fecha_witness :
    (analizar_estacionariedad libOk { rows := dataC4.rows, dateCol := some [99] } 2).2
      = (analizar_estacionariedad libOk dataC4 2).2 :=
  (analizar_mutacion_solo_fecha libOk dataC4 { rows := dataC4.rows, dateCol := some [99] } 2
    rfl).2.2

/-- Claim C5: on an empty result table `generar_reporte` short-circuits to
the fixed insufficient-information message (no percentage is computed, so
no division by zero can be raised). -/
theorem reporte_tabla_vacia (df : List Row) (h : df.isEmpty = true) :
    generar_reporte df = "No hay suficiente información para realizar el análisis." := by
  unfold generar_reporte
  rw [if_pos h]
  rfl

/-- Witness: the empty result table produces exactly the fixed message. -/
theorem reporte_tabla_vacia_witness :
    generar_reporte [] = "No hay suficiente información para realizar el análisis." :=
  reporte_tabla_vacia [] rfl

/-- Claim C8: the pipeline is deterministic and idempotent: re-running
`analizar_estacionariedad` on the frame returned by a first run (the one
mutated in place by `data['date'] = data.index.date`) returns a
bit-identical mutated frame and a bit-identical result table; the three
statistical routines are modelled as (deterministic) functions, matching
the absence of any randomness source in the code. -/
theorem analizar_determinista (lib : StatLib) (data : PriceFrame) (w : ℕ) :
    analizar_estacionariedad lib ((analizar_estacionariedad lib data w).1) w
      = analizar_estacionariedad lib data w := by
  rfl

/-- Claim C1: for a frame spanning `d` distinct calendar dates and any
window size `w ≥ 1`, the loop iterates over exactly `max(0, d - w + 1)`
windows of `w` consecutive distinct dates each; the result table is the
window list filtered through the per-window evaluator, and when the frame
spans fewer than `w` distinct dates the result table is empty (no error is
raised: the loop body simply never runs). -/
theorem conteo_ventanas (lib : StatLib) (data : PriceFrame) (w : ℕ) (hw : 1 ≤ w) :
    (((ventanas data w).length : ℤ) = max 0 ((distinctDateCount data : ℤ) - (w : ℤ) + 1))
    ∧ (∀ v ∈ ventanas data w, v.length = w)
    ∧ ((analizar_estacionariedad lib data w).2 =
        (ventanas data w).filterMap (procesarVentana lib (setDateColumn data).rows))
    ∧ (distinctDateCount data < w → (analizar_estacionariedad lib data w).2 = []) := by
  refine ⟨?_, ?_, analizar_snd_eq lib data w, ?_⟩
  · rw [length_ventanas]
    unfold numVentanas
    omega
  · intro v hv
    rw [ventanas] at hv
    simp only [List.mem_map, List.mem_range] at hv
    obtain ⟨i, hi, rfl⟩ := hv
    have hd := length_fechasUnicas data
    unfold numVentanas at hi
    simp only [ventanaAt, List.length_take, List.length_drop]
    omega
  · intro hlt
    rw [analizar_snd_eq]
    have h0 : (ventanas data w).length = 0 := by
      rw [length_ventanas]
      unfold numVentanas
      omega
    rw [List.length_eq_zero.mp h0]
    rfl

/-- Frame for the window-count witness: three distinct dates, two valid
bars each. -/
def dataC1 : PriceFrame :=
  { rows := [⟨0, 0, some 1⟩, ⟨0, 1, some 2⟩, ⟨1, 0, some 3⟩, ⟨1, 1, some 4⟩,
             ⟨2, 0, some 5⟩, ⟨2, 1, some 6⟩], dateCol := none }

/-- Witness: on a frame with 3 distinct dates and `w = 2` the loop
iterates over `max(0, 3 - 2 + 1) = 2` windows. -/
theorem conteo_ventanas_witness :
    ((ventanas dataC1 2).length : ℤ) = max 0 ((distinctDateCount dataC1 : ℤ) - (2 : ℤ) + 1) :=
  (conteo_ventanas libOk dataC1 2 (by decide)).1

/-- Claim C2: per window only present `Close` prices strictly greater
than 0 survive the filter; a window whose surviving price count is below 2
contributes no row (`continue`, no error), and whenever such a window
exists the result table has strictly fewer rows than there are windows. -/
theorem ventana_saltada (lib : StatLib) (data : PriceFrame) (w i : ℕ) (c : ℚ)
    (hi : i < (ventanas data w).length)
    (hc : c ∈ preciosValidos (ventanaSubset (setDateColumn data).rows
        ((ventanas data w).get ⟨i, hi⟩)))
    (hlt : (preciosValidos (ventanaSubset (setDateColumn data).rows
        ((ventanas data w).get ⟨i, hi⟩))).length < 2) :
    0 < c
    ∧ procesarVentana lib (setDateColumn data).rows ((ventanas data w).get ⟨i, hi⟩) = none
    ∧ (analizar_estacionariedad lib data w).2.length < (ventanas data w).length := by
  have hnone :
      procesarVentana lib (setDateColumn data).rows ((ventanas data w).get ⟨i, hi⟩) = none := by
    unfold procesarVentana
    rw [if_pos hlt]
  refine ⟨preciosValidos_pos _ c hc, hnone, ?_⟩
  rw [analizar_snd_eq]
  exact length_filterMap_lt _ (ventanas data w) _ (List.get_mem _ _ _) hnone

/-- Frame for the skipped-window witness: date 0 has two valid bars,
date 1 has one, date 2 has only a non-positive and a missing close, so the
window over dates 1-2 has a single valid price and is skipped. -/
def dataC2 : PriceFrame :=
  { rows := [⟨0, 0, some 1⟩, ⟨0, 1, some 2⟩, ⟨1, 0, some 3⟩,
             ⟨2, 0, some 0⟩, ⟨2, 1, none⟩], dateCol := none }

/-- Witness: on `dataC2` with `w = 2` the second window keeps only the
price 3, is skipped, and the table ends up strictly shorter than the
window list. -/
theorem ventana_saltada_witness :
    (0 : ℚ) < 3
    ∧ procesarVentana libOk (setDateColumn dataC2).rows
        ((ventanas dataC2 2).get ⟨1, by decide⟩) = none
    ∧ (analizar_estacionariedad libOk dataC2 2).2.length < (ventanas dataC2 2).length :=
  ventana_saltada libOk dataC2 2 1 3 (by decide) (by decide) (by decide)

/-- Frame for the empty-result-plus-plot scenario: non-empty data spanning
a single calendar date, analysed with `ventana_dias = 2`. -/
def dataC10 : PriceFrame :=
  { rows := [⟨0, 0, some 1⟩, ⟨0, 2, some 2⟩], dateCol := none }

/-- Claim C10: on non-empty data spanning one distinct date the result
table is empty, the report is the insufficient-information message, yet
the script still calls `graficar`, whose access to the `Inicio Ventana`
column of the column-less empty frame raises `KeyError` and aborts the
run. -/
theorem graficar_aborta_tabla_vacia :
    dataC10.rows ≠ []
    ∧ (analizar_estacionariedad libOk dataC10 2).2 = []
    ∧ generar_reporte (analizar_estacionariedad libOk dataC10 2).2 = mensajeInsuficiente
    ∧ graficar (analizar_estacionariedad libOk dataC10 2).2
        = Except.error ("KeyError: " ++ "Inicio Ventana")
    ∧ appMain libOk dataC10 = Except.error ("KeyError: " ++ "Inicio Ventana") :=
  ⟨by decide, rfl, rfl, rfl, rfl⟩

/-- Claim C3: each summary percentage is the count of rows passing the
threshold predicate divided by the total row count times 100; a row with a
null p-value or exponent fails the corresponding predicate (pandas NaN
comparison semantics) yet is still counted in the denominator, which is
always the full row count. -/
theorem porcentajes_formula (df : List Row) (r : Row) (h : df ≠ [])
    (hk : r.kpssPvalue = none) (hh : r.hurstExponent = none) :
    (porcentajes df).1 = ((df.countP adfEstacionario : ℚ) / (df.length : ℚ)) * 100
    ∧ (porcentajes df).2.1 = ((df.countP kpssEstacionario : ℚ) / (df.length : ℚ)) * 100
    ∧ (porcentajes df).2.2 = ((df.countP hurstEstacionario : ℚ) / (df.length : ℚ)) * 100
    ∧ kpssEstacionario r = false
    ∧ hurstEstacionario r = false := by
  refine ⟨?_, ?_, ?_, ?_, ?_⟩ <;>
    simp [porcentajes, seriesBoolMean, List.countP_map, Function.comp,
      kpssEstacionario, hurstEstacionario, hk, hh]

/-- A row whose window passed every test threshold. -/
def rowA : Row :=
  { inicioVentana := 0, finVentana := 1, adfPvalue := 1/100,
    kpssPvalue := some (1/10), hurstExponent := some (1/2), volatilidad := some 1 }

/-- A row with a high ADF p-value and null KPSS p-value and exponent. -/
def rowB : Row :=
  { inicioVentana := 1, finVentana := 2, adfPvalue := 1/2,
    kpssPvalue := none, hurstExponent := none, volatilidad := some 1 }

/-- A ten-row result table of which six rows have ADF p-value below 0.05. -/
def df10 : List Row :=
  [rowA, rowA, rowA, rowA, rowA, rowA, rowB, rowB, rowB, rowB]

/-- Witness: on the ten-row table the ADF percentage follows the count
formula and evaluates to 60; the null-valued row fails both null-sensitive
predicates. -/
theorem porcentajes_formula_witness :
    (porcentajes df10).1 = ((df10.countP adfEstacionario : ℚ) / (df10.length : ℚ)) * 100
    ∧ kpssEstacionario rowB = false
    ∧ hurstEstacionario rowB = false
    ∧ (porcentajes df10).1 = 60 :=
  ⟨(porcentajes_formula df10 rowB (by decide) rfl rfl).1,
   (porcentajes_formula df10 rowB (by decide) rfl rfl).2.2.2.1,
   (porcentajes_formula df10 rowB (by decide) rfl rfl).2.2.2.2,
   by norm_num [porcentajes, seriesBoolMean, df10, rowA, rowB, adfEstacionario,
     List.countP_cons]⟩

/-- Claim C6: when the KPSS call raises `ValueError`, the failure is
caught: the `KPSS` entry records a null p-value together with the error
message string, the window still yields a row (whose KPSS p-value is null
and whose ADF p-value is the ADF test's), and no exception escapes. -/
theorem kpss_fallo_capturado (lib : StatLib) (rows : List Bar) (ventana : List ℤ) (e : String)
    (h2 : 2 ≤ (preciosValidos (ventanaSubset rows ventana)).length)
    (hk : lib.kpss "c" "auto" (retornosVentana rows ventana) = Except.error e) :
    (pruebas_estacionariedad lib (retornosVentana rows ventana)).KPSS
        = { pvalue := none, estadistico := none, error := some e }
    ∧ procesarVentana lib rows ventana ≠ none
    ∧ (procesarVentana lib rows ventana).map Row.kpssPvalue = some none
    ∧ (procesarVentana lib rows ventana).map Row.adfPvalue
        = some (lib.adfuller (retornosVentana rows ventana)).2 := by
  have hnot : ¬ (preciosValidos (ventanaSubset rows ventana)).length < 2 := not_lt.mpr h2
  have h1 : (pruebas_estacionariedad lib (retornosVentana rows ventana)).KPSS
      = { pvalue := none, estadistico := none, error := some e } := by
    simp [pruebas_estacionariedad, hk]
  have hrow : procesarVentana lib rows ventana = some
      { inicioVentana := ventana.headD 0
        finVentana := ventana.getLastD 0
        adfPvalue := (pruebas_estacionariedad lib (retornosVentana rows ventana)).ADF.pvalue
        kpssPvalue := (pruebas_estacionariedad lib (retornosVentana rows ventana)).KPSS.pvalue
        hurstExponent := calcular_hurst lib (retornosVentana rows ventana)
        volatilidad := seriesStd lib (retornosVentana rows ventana) } := by
    simp only [procesarVentana]
    rw [if_neg hnot]
    rfl
  refine ⟨h1, ?_, ?_, ?_⟩
  · rw [hrow]
    simp
  · rw [hrow, Option.map_some']
    rw [h1]
  · rw [hrow, Option.map_some']
    simp [pruebas_estacionariedad]

/-- Statistical library whose KPSS call always raises `ValueError`. -/
def libKpssError : StatLib :=
  { adfuller := fun _ => (-3, 1/100)
    kpss := fun _ _ _ => Except.error "InterpolationError: p-value outside table"
    computeHc := fun _ _ _ => Except.ok (1/2, 1, [])
    sqrt := fun _ => 1 }

/-- Rows and window shared by the KPSS-failure and volatility witnesses:
one date with two valid bars. -/
def rowsW : List Bar := [⟨0, 0, some 1⟩, ⟨0, 1, some 2⟩]

/-- The single-date window over `rowsW`. -/
def ventW : List ℤ := [0]

/-- Witness: with an always-failing KPSS the entry records the null
p-value and the message, and the window still yields a row. -/
theorem kpss_fallo_capturado_witness :
    (pruebas_estacionariedad libKpssError (retornosVentana rowsW ventW)).KPSS
      = { pvalue := none, estadistico := none,
          error := some "InterpolationError: p-value outside table" }
    ∧ procesarVentana libKpssError rowsW ventW ≠ none :=
  ⟨(kpss_fallo_capturado libKpssError rowsW ventW _ (by decide) rfl).1,
   (kpss_fallo_capturado libKpssError rowsW ventW _ (by decide) rfl).2.1⟩

/-- Claim C7: the long-memory exponent is null below the 100-observation
floor; at or above the floor it is the result of
`compute_Hc(kind="price", simplified=True)`, with a `FloatingPointError`
caught into null. -/
theorem hurst_politica (lib : StatLib) (data : List ℚ) :
    (data.length < 100 → calcular_hurst lib data = none)
    ∧ (100 ≤ data.length →
        calcular_hurst lib data = ((lib.computeHc "price" true data).toOption.map Prod.fst)) := by
  constructor
  · intro h
    simp [calcular_hurst, h]
  · intro h
    have hnot : ¬ data.length < 100 := by omega
    unfold calcular_hurst
    rw [if_neg hnot]
    cases lib.computeHc "price" true data <;> simp [Except.toOption]

/-- Witness: a 50-observation series is below the floor (null exponent); a
100-observation series is estimated. -/
theorem hurst_politica_witness :
    calcular_hurst libOk (List.replicate 50 (0 : ℚ)) = none
    ∧ calcular_hurst libOk (List.replicate 100 (0 : ℚ))
        = ((libOk.computeHc "price" true (List.replicate 100 (0 : ℚ))).toOption.map Prod.fst) :=
  ⟨(hurst_politica libOk _).1 (by simp), (hurst_politica libOk _).2 (by simp)⟩

/-- Claim C9: every emitted row records as volatility `retornos.std()`,
the sample standard deviation with the pandas default `ddof = 1` (the same
convention for every window, since the same function computes it); for a
window of exactly two valid prices the return series has one element and
the recorded volatility is null, not an error. -/
theorem volatilidad_muestral (lib : StatLib) (rows : List Bar) (ventana : List ℤ) (r : Row)
    (h : procesarVentana lib rows ventana = some r) :
    r.volatilidad = seriesStd lib (retornosVentana rows ventana)
    ∧ seriesStd lib (retornosVentana rows ventana)
        = (if (retornosVentana rows ventana).length < 2 then none
           else some (lib.sqrt
              (((retornosVentana rows ventana).map
                  (fun x => (x - (retornosVentana rows ventana).sum
                      / ((retornosVentana rows ventana).length : ℚ)) ^ 2)).sum
                / (((retornosVentana rows ventana).length : ℚ) - 1))))
    ∧ ((preciosValidos (ventanaSubset rows ventana)).length = 2 → r.volatilidad = none) := by
  have hvol : r.volatilidad = seriesStd lib (retornosVentana rows ventana) := by
    simp only [procesarVentana] at h
    by_cases hc : (preciosValidos (ventanaSubset rows ventana)).length < 2
    · rw [if_pos hc] at h
      cases h
    · rw [if_neg hc] at h
      injection h with h2
      rw [← h2]
      rfl
  refine ⟨hvol, rfl, ?_⟩
  intro h2
  rw [hvol]
  have hlen : (retornosVentana rows ventana).length = 1 := by
    unfold retornosVentana
    rw [length_pct_change, h2]
  simp [seriesStd, hlen]

/-- Row produced by `procesarVentana` on `rowsW`/`ventW` under `libOk`. -/
def rowW : Row :=
  { inicioVentana := 0, finVentana := 0, adfPvalue := 1/100,
    kpssPvalue := some (1/10), hurstExponent := none, volatilidad := none }

/-- Witness: the window over `rowsW` has exactly two valid prices, so its
emitted row records a null volatility. -/
theorem volatilidad_muestral_witness :
    rowW.volatilidad = none :=
  (volatilidad_muestral libOk rowsW ventW rowW
    (by norm_num [procesarVentana, preciosValidos, ventanaSubset, pct_change,
      pruebas_estacionariedad, calcular_hurst, seriesStd, retornosVentana,
      rowsW, ventW, rowW, libOk, List.filterMap_cons, List.filterMap_nil])).2.2 (by decide)
